import Mathlib

/-!
Shallow embedding of `src/simulador_auditor_sef_mg_react.jsx`, a salary
projection calculator. JavaScript numbers are modelled as exact rationals
(`ℚ`); the year horizon, which the source iterates over with an integer
loop counter, is modelled as `ℤ`. The engine is the pure function
`projectScenario`; the scenario-collection operations (`removeScenario` and
the UI guard protecting the default scenario) and the localStorage
persistence (JSON serialization of the scenario list) are embedded as pure
state transforms and an encode/decode pair on a JSON value type.
-/

namespace Simulador

/-- `DEPENDENT_DEDUCTION = 189.59` (src line 39). -/
def DEPENDENT_DEDUCTION : ℚ := 18959 / 100

/-- `PREVID_PERCENT = 0.14` (src line 40). -/
def PREVID_PERCENT : ℚ := 14 / 100

/-- `IR_FLAT_PERCENT = 0.15` (src line 41). -/
def IR_FLAT_PERCENT : ℚ := 15 / 100

/-- `DEFAULT_YEARS = 30` (src line 37). -/
def DEFAULT_YEARS : ℤ := 30

/-- `DEFAULT_HELP_DAYS = 20` (src line 38). -/
def DEFAULT_HELP_DAYS : ℚ := 20

/-- The parameter object destructured by `projectScenario` (src lines 53-64). -/
structure ProjParams where
  baseSalary : ℚ
  gepiPointValue : ℚ
  gepiPoints : ℚ
  viPerHelpDay : ℚ
  helpDays : ℚ
  dependents : ℚ
  basicAnnualPctReaj : ℚ := 0
  gepiCentsAnnual : ℚ := 0
  viReajAnnual : ℚ := 0
  years : ℤ := DEFAULT_YEARS
deriving Repr, DecidableEq

/-- `basicYear = baseSalary * Math.pow(1 + basicAnnualPctReaj / 100, t)`
(src line 74). -/
def basicYear (p : ProjParams) (t : ℕ) : ℚ :=
  p.baseSalary * (1 + p.basicAnnualPctReaj / 100) ^ t

/-- `gepiPointYear = gepiPointValue + gepiCentsAnnual * t` (src line 77). -/
def gepiPointYear (p : ProjParams) (t : ℕ) : ℚ :=
  p.gepiPointValue + p.gepiCentsAnnual * t

/-- `gepiTotalYear = gepiPointYear * gepiPoints` (src line 78). -/
def gepiTotalYear (p : ProjParams) (t : ℕ) : ℚ :=
  gepiPointYear p t * p.gepiPoints

/-- `viYear = viPerHelpDay * helpDays + viReajAnnual * t` (src line 81). -/
def viYear (p : ProjParams) (t : ℕ) : ℚ :=
  p.viPerHelpDay * p.helpDays + p.viReajAnnual * t

/-- `grossMonthly = basicYear + gepiTotalYear + viYear` (src line 83). -/
def grossMonthly (p : ProjParams) (t : ℕ) : ℚ :=
  basicYear p t + gepiTotalYear p t + viYear p t

/-- `grossAnnual = grossMonthly * 12` (src line 84). -/
def grossAnnual (p : ProjParams) (t : ℕ) : ℚ :=
  grossMonthly p t * 12

/-- The deductions and net pay of the loop body (src lines 87-92):
`previd = grossAnnual * PREVID_PERCENT`,
`deductionDependents = dependents * DEPENDENT_DEDUCTION * 12`,
`taxable = Math.max(0, grossAnnual - previd - deductionDependents)`,
`ir = taxable * IR_FLAT_PERCENT`,
`netAnnual = grossAnnual - previd - ir`. -/
def netAnnual (p : ProjParams) (t : ℕ) : ℚ :=
  let g := grossAnnual p t
  let previd := g * PREVID_PERCENT
  let deductionDependents := p.dependents * DEPENDENT_DEDUCTION * 12
  let taxable := max 0 (g - previd - deductionDependents)
  let ir := taxable * IR_FLAT_PERCENT
  g - previd - ir

/-- The result record `{ labels, grossSeries, netSeries }` (src line 98). -/
structure ProjectionResult where
  labels : List String
  grossSeries : List ℚ
  netSeries : List ℚ
deriving Repr, DecidableEq

/-- Number of iterations of `for (let t = 0; t <= years; t++)` (src line 69):
zero when `years < 0`, otherwise `years + 1`. -/
def loopCount (years : ℤ) : ℕ := (years + 1).toNat

/-- `projectScenario` (src lines 53-99): iterates `t` from `0` to `years`
inclusive, pushing `String(thisYear + t)` onto `labels`, `grossAnnual` onto
`grossSeries` and `netAnnual` onto `netSeries`. `thisYear` is the engine's
external current-year dependency (src line 44), passed explicitly here. -/
def projectScenario (thisYear : ℤ) (p : ProjParams) : ProjectionResult :=
  let ts := List.range (loopCount p.years)
  { labels := ts.map (fun t : ℕ => toString (thisYear + (t : ℤ)))
    grossSeries := ts.map (fun t => grossAnnual p t)
    netSeries := ts.map (fun t => netAnnual p t) }

/-- The default scenario's compensation inputs (src lines 113-131), with the
spec example's horizon of one year. -/
def exampleParams : ProjParams :=
  { baseSalary := 9000, gepiPointValue := 20, gepiPoints := 100,
    viPerHelpDay := 15, helpDays := 20, dependents := 0,
    basicAnnualPctReaj := 0, gepiCentsAnnual := 0, viReajAnnual := 0,
    years := 1 }

lemma lt_loopCount {t : ℕ} {years : ℤ} (h : (t : ℤ) ≤ years) :
    t < loopCount years := by
  unfold loopCount; omega

lemma grossSeries_getD (y : ℤ) (p : ProjParams) {t : ℕ}
    (h : t < loopCount p.years) :
    (projectScenario y p).grossSeries.getD t 0 = grossAnnual p t := by
  simp [projectScenario, List.getD_eq_getElem?_getD, List.getElem?_map,
    List.getElem?_range h]

lemma netSeries_getD (y : ℤ) (p : ProjParams) {t : ℕ}
    (h : t < loopCount p.years) :
    (projectScenario y p).netSeries.getD t 0 = netAnnual p t := by
  simp [projectScenario, List.getD_eq_getElem?_getD, List.getElem?_map,
    List.getElem?_range h]

lemma length_labels (y : ℤ) (p : ProjParams) :
    (projectScenario y p).labels.length = loopCount p.years := by
  simp only [projectScenario, List.length_map, List.length_range]

lemma length_grossSeries (y : ℤ) (p : ProjParams) :
    (projectScenario y p).grossSeries.length = loopCount p.years := by
  simp [projectScenario]

lemma length_netSeries (y : ℤ) (p : ProjParams) :
    (projectScenario y p).netSeries.length = loopCount p.years := by
  simp [projectScenario]

/-- C1: on the spec's example scenario (base salary 9000, point value 20,
100 points, per-diem 15 over 20 days, no dependents, zero growth, one year)
the projection has two entries; its year-0 gross annual is exactly 135600
and its net annual exactly 99123.6, with gross monthly 11300,
social-contribution deduction 18984, taxable base 116616 and income tax
17492.4 — for any current year `y`. -/
theorem C1_example_scenario (y : ℤ) :
    (projectScenario y exampleParams).grossSeries.length = 2 ∧
    (projectScenario y exampleParams).netSeries.length = 2 ∧
    (projectScenario y exampleParams).grossSeries.headI = 135600 ∧
    (projectScenario y exampleParams).netSeries.headI = 991236 / 10 ∧
    grossMonthly exampleParams 0 = 11300 ∧
    grossAnnual exampleParams 0 * PREVID_PERCENT = 18984 ∧
    max 0 (grossAnnual exampleParams 0 - grossAnnual exampleParams 0 * PREVID_PERCENT
      - exampleParams.dependents * DEPENDENT_DEDUCTION * 12) = 116616 ∧
    116616 * IR_FLAT_PERCENT = (174924 : ℚ) / 10 := by
  refine ⟨?_, ?_, ?_, ?_, ?_, ?_, ?_, ?_⟩ <;>
    norm_num [projectScenario, loopCount, exampleParams, grossAnnual, grossMonthly,
      basicYear, gepiTotalYear, gepiPointYear, viYear, netAnnual,
      PREVID_PERCENT, IR_FLAT_PERCENT, DEPENDENT_DEDUCTION, List.range_succ,
      Int.toNat_ofNat, List.replicate, List.headI]

/-- C3: for every non-negative integer horizon, the three sequences returned
by `projectScenario` all have length `years + 1`. -/
theorem C3_series_lengths (y : ℤ) (p : ProjParams) (h : 0 ≤ p.years) :
    ((projectScenario y p).labels.length : ℤ) = p.years + 1 ∧
    ((projectScenario y p).grossSeries.length : ℤ) = p.years + 1 ∧
    ((projectScenario y p).netSeries.length : ℤ) = p.years + 1 := by
  refine ⟨?_, ?_, ?_⟩ <;>
    simp only [length_labels, length_grossSeries, length_netSeries, loopCount] <;>
    omega

/-- Witness for C3 at the example scenario (horizon 1). -/
theorem C3_series_lengths_witness :
    (0 : ℤ) ≤ exampleParams.years ∧
    (((projectScenario 2025 exampleParams).labels.length : ℤ) = exampleParams.years + 1 ∧
     ((projectScenario 2025 exampleParams).grossSeries.length : ℤ) = exampleParams.years + 1 ∧
     ((projectScenario 2025 exampleParams).netSeries.length : ℤ) = exampleParams.years + 1) :=
  ⟨by norm_num [exampleParams], C3_series_lengths 2025 exampleParams (by norm_num [exampleParams])⟩

/-- C4: for a horizon of zero years, the sequences have exactly one element
and the single year label is the engine's current-year parameter. -/
theorem C4_zero_horizon (y : ℤ) (p : ProjParams) (h : p.years = 0) :
    (projectScenario y p).labels = [toString y] ∧
    (projectScenario y p).grossSeries.length = 1 ∧
    (projectScenario y p).netSeries.length = 1 := by
  refine ⟨?_, ?_, ?_⟩ <;>
    simp [projectScenario, loopCount, h, List.range_succ]

/-- Witness for C4 at the example scenario with horizon 0. -/
theorem C4_zero_horizon_witness :
    ({ exampleParams with years := 0 } : ProjParams).years = 0 ∧
    ((projectScenario 2025 { exampleParams with years := 0 }).labels = [toString (2025 : ℤ)] ∧
     (projectScenario 2025 { exampleParams with years := 0 }).grossSeries.length = 1 ∧
     (projectScenario 2025 { exampleParams with years := 0 }).netSeries.length = 1) :=
  ⟨rfl, C4_zero_horizon 2025 { exampleParams with years := 0 } rfl⟩

/-- C10: for every negative horizon, the loop body never runs and all three
returned sequences are empty. -/
theorem C10_negative_horizon (y : ℤ) (p : ProjParams) (h : p.years < 0) :
    (projectScenario y p).labels = [] ∧
    (projectScenario y p).grossSeries = [] ∧
    (projectScenario y p).netSeries = [] := by
  have hc : loopCount p.years = 0 := by unfold loopCount; omega
  refine ⟨?_, ?_, ?_⟩ <;> simp [projectScenario, hc]

/-- Witness for C10 at horizon -1. -/
theorem C10_negative_horizon_witness :
    ({ exampleParams with years := -1 } : ProjParams).years < 0 ∧
    ((projectScenario 2025 { exampleParams with years := -1 }).labels = [] ∧
     (projectScenario 2025 { exampleParams with years := -1 }).grossSeries = [] ∧
     (projectScenario 2025 { exampleParams with years := -1 }).netSeries = []) :=
  ⟨by norm_num, C10_negative_horizon 2025 { exampleParams with years := -1 } (by norm_num)⟩

lemma grossAnnual_of_zero_growth (p : ProjParams) (h1 : p.basicAnnualPctReaj = 0)
    (h2 : p.gepiCentsAnnual = 0) (h3 : p.viReajAnnual = 0) (t : ℕ) :
    grossAnnual p t = grossAnnual p 0 := by
  simp [grossAnnual, grossMonthly, basicYear, gepiPointYear, gepiTotalYear, viYear,
    h1, h2, h3]

lemma netAnnual_of_zero_growth (p : ProjParams) (h1 : p.basicAnnualPctReaj = 0)
    (h2 : p.gepiCentsAnnual = 0) (h3 : p.viReajAnnual = 0) (t : ℕ) :
    netAnnual p t = netAnnual p 0 := by
  simp only [netAnnual, grossAnnual_of_zero_growth p h1 h2 h3 t]

/-- C5: with all three growth parameters zero, every entry of the gross and
net series equals the corresponding year-0 entry. -/
theorem C5_no_growth (y : ℤ) (p : ProjParams) (h1 : p.basicAnnualPctReaj = 0)
    (h2 : p.gepiCentsAnnual = 0) (h3 : p.viReajAnnual = 0)
    (t : ℕ) (ht : (t : ℤ) ≤ p.years) :
    (projectScenario y p).grossSeries.getD t 0 = (projectScenario y p).grossSeries.getD 0 0 ∧
    (projectScenario y p).netSeries.getD t 0 = (projectScenario y p).netSeries.getD 0 0 := by
  have h0 : ((0 : ℕ) : ℤ) ≤ p.years := by
    have : (0 : ℤ) ≤ (t : ℤ) := Int.ofNat_nonneg t
    omega
  rw [grossSeries_getD y p (lt_loopCount ht), grossSeries_getD y p (lt_loopCount h0),
    netSeries_getD y p (lt_loopCount ht), netSeries_getD y p (lt_loopCount h0)]
  exact ⟨grossAnnual_of_zero_growth p h1 h2 h3 t, netAnnual_of_zero_growth p h1 h2 h3 t⟩

/-- Witness for C5 at the example scenario, offset 1. -/
theorem C5_no_growth_witness :
    (exampleParams.basicAnnualPctReaj = 0 ∧ exampleParams.gepiCentsAnnual = 0 ∧
     exampleParams.viReajAnnual = 0 ∧ ((1 : ℕ) : ℤ) ≤ exampleParams.years) ∧
    ((projectScenario 2025 exampleParams).grossSeries.getD 1 0 =
       (projectScenario 2025 exampleParams).grossSeries.getD 0 0 ∧
     (projectScenario 2025 exampleParams).netSeries.getD 1 0 =
       (projectScenario 2025 exampleParams).netSeries.getD 0 0) :=
  ⟨⟨rfl, rfl, rfl, by norm_num [exampleParams]⟩,
   C5_no_growth 2025 exampleParams rfl rfl rfl 1 (by norm_num [exampleParams])⟩

/-- A scenario exercising only the per-diem component, with a nonzero per-diem
annual increment. -/
def viOnlyParams : ProjParams :=
  { baseSalary := 0, gepiPointValue := 0, gepiPoints := 0,
    viPerHelpDay := 15, helpDays := 20, dependents := 0,
    basicAnnualPctReaj := 0, gepiCentsAnnual := 0, viReajAnnual := 1,
    years := 1 }

/-- C2 counterexample: the source computes the per-diem allowance as
`viPerHelpDay * helpDays + viReajAnnual * t` (src line 81); the claim's
formula `(rate + increment * t) * days + increment * t`, which applies the
increment inside the grown rate as well, disagrees with it at
`viOnlyParams` (rate 15, 20 days, increment 1) and offset `t = 1`:
the code yields 301 while the claimed formula yields 321. -/
theorem C2_counterexample :
    ¬ (∀ (p : ProjParams) (t : ℕ), (t : ℤ) ≤ p.years →
        viYear p t =
          (p.viPerHelpDay + p.viReajAnnual * t) * p.helpDays + p.viReajAnnual * t) := by
  intro h
  have h1 := h viOnlyParams 1 (by norm_num [viOnlyParams])
  norm_num [viYear, viOnlyParams] at h1

/-- C2 amended: every entry of the gross series equals twelve times the sum of
the compound-grown base salary, the linearly grown point bonus, and the
per-diem allowance `viPerHelpDay * helpDays + viReajAnnual * t` — the annual
increment enters once, as a flat addition, and is never multiplied by the day
count. -/
theorem C2_vi_increment_applied_once (y : ℤ) (p : ProjParams) (t : ℕ)
    (ht : (t : ℤ) ≤ p.years) :
    (projectScenario y p).grossSeries.getD t 0 =
      (p.baseSalary * (1 + p.basicAnnualPctReaj / 100) ^ t
        + (p.gepiPointValue + p.gepiCentsAnnual * t) * p.gepiPoints
        + (p.viPerHelpDay * p.helpDays + p.viReajAnnual * t)) * 12 := by
  rw [grossSeries_getD y p (lt_loopCount ht)]
  simp [grossAnnual, grossMonthly, basicYear, gepiTotalYear, gepiPointYear, viYear]

/-- Witness for the amended C2 at `viOnlyParams`, offset 1: the allowance is
15·20 + 1 = 301, so the gross entry is 3612. -/
theorem C2_vi_increment_applied_once_witness :
    ((1 : ℕ) : ℤ) ≤ viOnlyParams.years ∧
    (projectScenario 2025 viOnlyParams).grossSeries.getD 1 0 =
      (viOnlyParams.baseSalary * (1 + viOnlyParams.basicAnnualPctReaj / 100) ^ (1 : ℕ)
        + (viOnlyParams.gepiPointValue + viOnlyParams.gepiCentsAnnual * (1 : ℕ)) * viOnlyParams.gepiPoints
        + (viOnlyParams.viPerHelpDay * viOnlyParams.helpDays + viOnlyParams.viReajAnnual * (1 : ℕ))) * 12 :=
  ⟨by norm_num [viOnlyParams],
   C2_vi_increment_applied_once 2025 viOnlyParams 1 (by norm_num [viOnlyParams])⟩

/-- The data-model invariant of the spec: all monetary and count inputs of a
scenario are non-negative. -/
def NonnegInputs (p : ProjParams) : Prop :=
  0 ≤ p.baseSalary ∧ 0 ≤ p.gepiPointValue ∧ 0 ≤ p.gepiPoints ∧
  0 ≤ p.viPerHelpDay ∧ 0 ≤ p.helpDays ∧ 0 ≤ p.dependents

/-- All three growth parameters are non-negative. -/
def NonnegGrowth (p : ProjParams) : Prop :=
  0 ≤ p.basicAnnualPctReaj ∧ 0 ≤ p.gepiCentsAnnual ∧ 0 ≤ p.viReajAnnual

lemma grossAnnual_mono (p : ProjParams) (hin : NonnegInputs p) (hgr : NonnegGrowth p)
    (t : ℕ) : grossAnnual p t ≤ grossAnnual p (t + 1) := by
  obtain ⟨hb, hgv, hgp, hvi, hhd, -⟩ := hin
  obtain ⟨h1, h2, h3⟩ := hgr
  have hbase : (1 : ℚ) ≤ 1 + p.basicAnnualPctReaj / 100 := by linarith
  have hpow : (1 + p.basicAnnualPctReaj / 100) ^ t ≤ (1 + p.basicAnnualPctReaj / 100) ^ (t + 1) :=
    pow_le_pow_right₀ hbase (Nat.le_succ t)
  have hb' : p.baseSalary * (1 + p.basicAnnualPctReaj / 100) ^ t ≤
      p.baseSalary * (1 + p.basicAnnualPctReaj / 100) ^ (t + 1) :=
    mul_le_mul_of_nonneg_left hpow hb
  have hg' : (p.gepiPointValue + p.gepiCentsAnnual * t) * p.gepiPoints ≤
      (p.gepiPointValue + p.gepiCentsAnnual * (t + 1 : ℕ)) * p.gepiPoints := by
    apply mul_le_mul_of_nonneg_right _ hgp
    push_cast
    nlinarith
  have hv' : p.viPerHelpDay * p.helpDays + p.viReajAnnual * t ≤
      p.viPerHelpDay * p.helpDays + p.viReajAnnual * (t + 1 : ℕ) := by
    push_cast
    nlinarith
  unfold grossAnnual grossMonthly basicYear gepiTotalYear gepiPointYear viYear
  linarith

lemma grossAnnual_nonneg (p : ProjParams) (hin : NonnegInputs p) (hgr : NonnegGrowth p)
    (t : ℕ) : 0 ≤ grossAnnual p t := by
  obtain ⟨hb, hgv, hgp, hvi, hhd, -⟩ := hin
  obtain ⟨h1, h2, h3⟩ := hgr
  have hpow : (0 : ℚ) ≤ (1 + p.basicAnnualPctReaj / 100) ^ t :=
    pow_nonneg (by linarith) t
  have htn : (0 : ℚ) ≤ (t : ℚ) := Nat.cast_nonneg t
  unfold grossAnnual grossMonthly basicYear gepiTotalYear gepiPointYear viYear
  have := mul_nonneg hb hpow
  have := mul_nonneg (add_nonneg hgv (mul_nonneg h2 htn)) hgp
  have := add_nonneg (mul_nonneg hvi hhd) (mul_nonneg h3 htn)
  linarith

lemma netAnnual_eq (p : ProjParams) (t : ℕ) :
    netAnnual p t = grossAnnual p t - grossAnnual p t * PREVID_PERCENT -
      max 0 (grossAnnual p t - grossAnnual p t * PREVID_PERCENT
        - p.dependents * DEPENDENT_DEDUCTION * 12) * IR_FLAT_PERCENT := rfl

lemma netAnnual_le_grossAnnual (p : ProjParams) (hin : NonnegInputs p) (hgr : NonnegGrowth p)
    (t : ℕ) : netAnnual p t ≤ grossAnnual p t := by
  have hg := grossAnnual_nonneg p hin hgr t
  rw [netAnnual_eq]
  have hprev : 0 ≤ grossAnnual p t * PREVID_PERCENT :=
    mul_nonneg hg (by norm_num [PREVID_PERCENT])
  have hir : 0 ≤ max 0 (grossAnnual p t - grossAnnual p t * PREVID_PERCENT
      - p.dependents * DEPENDENT_DEDUCTION * 12) * IR_FLAT_PERCENT :=
    mul_nonneg (le_max_left 0 _) (by norm_num [IR_FLAT_PERCENT])
  linarith

/-- C6: under the non-negativity invariant, with all growth parameters ≥ 0,
the gross annual series is monotonically non-decreasing in the offset. -/
theorem C6_gross_monotone (y : ℤ) (p : ProjParams) (hin : NonnegInputs p)
    (hgr : NonnegGrowth p) (t : ℕ) (ht : (t : ℤ) + 1 ≤ p.years) :
    (projectScenario y p).grossSeries.getD t 0 ≤
      (projectScenario y p).grossSeries.getD (t + 1) 0 := by
  have ht1 : ((t + 1 : ℕ) : ℤ) ≤ p.years := by push_cast; omega
  have ht0 : ((t : ℕ) : ℤ) ≤ p.years := by omega
  rw [grossSeries_getD y p (lt_loopCount ht0), grossSeries_getD y p (lt_loopCount ht1)]
  exact grossAnnual_mono p hin hgr t

/-- A scenario with all three growth parameters strictly positive. -/
def growthParams : ProjParams :=
  { exampleParams with
    basicAnnualPctReaj := 10, gepiCentsAnnual := 1,
    viReajAnnual := 2, years := 2 }

/-- Witness for C6 at `growthParams`, offset 0. -/
theorem C6_gross_monotone_witness :
    (NonnegInputs growthParams ∧ NonnegGrowth growthParams ∧
     ((0 : ℕ) : ℤ) + 1 ≤ growthParams.years) ∧
    (projectScenario 2025 growthParams).grossSeries.getD 0 0 ≤
      (projectScenario 2025 growthParams).grossSeries.getD (0 + 1) 0 :=
  ⟨⟨by norm_num [NonnegInputs, growthParams, exampleParams],
    by norm_num [NonnegGrowth, growthParams, exampleParams],
    by norm_num [growthParams, exampleParams]⟩,
   C6_gross_monotone 2025 growthParams
     (by norm_num [NonnegInputs, growthParams, exampleParams])
     (by norm_num [NonnegGrowth, growthParams, exampleParams])
     0 (by norm_num [growthParams, exampleParams])⟩

/-- C7: under the non-negativity invariant (reading "all inputs" as covering
the growth parameters as well), every net annual entry is at most the gross
annual entry at the same offset. -/
theorem C7_net_le_gross (y : ℤ) (p : ProjParams) (hin : NonnegInputs p)
    (hgr : NonnegGrowth p) (t : ℕ) (ht : (t : ℤ) ≤ p.years) :
    (projectScenario y p).netSeries.getD t 0 ≤
      (projectScenario y p).grossSeries.getD t 0 := by
  rw [netSeries_getD y p (lt_loopCount ht), grossSeries_getD y p (lt_loopCount ht)]
  exact netAnnual_le_grossAnnual p hin hgr t

/-- Witness for C7 at `growthParams`, offset 2. -/
theorem C7_net_le_gross_witness :
    (NonnegInputs growthParams ∧ NonnegGrowth growthParams ∧
     ((2 : ℕ) : ℤ) ≤ growthParams.years) ∧
    (projectScenario 2025 growthParams).netSeries.getD 2 0 ≤
      (projectScenario 2025 growthParams).grossSeries.getD 2 0 :=
  ⟨⟨by norm_num [NonnegInputs, growthParams, exampleParams],
    by norm_num [NonnegGrowth, growthParams, exampleParams],
    by norm_num [growthParams, exampleParams]⟩,
   C7_net_le_gross 2025 growthParams
     (by norm_num [NonnegInputs, growthParams, exampleParams])
     (by norm_num [NonnegGrowth, growthParams, exampleParams])
     2 (by norm_num [growthParams, exampleParams])⟩


structure Scenario where
  id : String
  name : String
  levelId : String
  dependents : ℚ
  helpDays : ℚ
  baseSalary : ℚ
  gepiPointValue : ℚ
  gepiPoints : ℚ
  viPerHelpDay : ℚ
  basicAnnualPctReaj : ℚ
  gepiCentsAnnual : ℚ
  viReajAnnual : ℚ
  years : ℤ
  color : String
deriving Repr, DecidableEq

structure AppState where
  scenarios : List Scenario
  selectedId : Option String
deriving Repr, DecidableEq

def removeScenario (id : String) (st : AppState) : AppState :=
  let next := st.scenarios.filter (fun s => s.id != id)
  { scenarios := next
    selectedId := if st.selectedId = some id then next.head?.map Scenario.id
                  else st.selectedId }

def attemptRemoveScenario (id : String) (st : AppState) : AppState :=
  if id = "atual" then st else removeScenario id st

lemma filter_ne_id_length {l : List Scenario} {i : String}
    (hnd : (l.map Scenario.id).Nodup) (hm : i ∈ l.map Scenario.id) :
    (l.filter (fun s => s.id != i)).length + 1 = l.length := by
  induction l with
  | nil => simp at hm
  | cons s l ih =>
    simp only [List.map_cons, List.nodup_cons] at hnd
    obtain ⟨hnotin, hnd'⟩ := hnd
    by_cases h : s.id = i
    · subst h
      have hfix : l.filter (fun x => x.id != s.id) = l := by
        apply List.filter_eq_self.mpr
        intro a ha
        have : a.id ≠ s.id := fun he => hnotin (he ▸ List.mem_map_of_mem Scenario.id ha)
        simpa using this
      simp [List.filter_cons, hfix]
    · have hm' : i ∈ l.map Scenario.id := by
        rcases List.mem_cons.mp hm with h' | h'
        · exact absurd h'.symm h
        · exact h'
      have := ih hnd' hm'
      simp only [List.filter_cons]
      have hbe : (s.id != i) = true := by simpa using h
      simp [hbe]
      omega

theorem C8_remove_scenario (st : AppState) (i : String)
    (hnd : (st.scenarios.map Scenario.id).Nodup) :
    attemptRemoveScenario "atual" st = st ∧
    (i ≠ "atual" → i ∈ st.scenarios.map Scenario.id →
      (attemptRemoveScenario i st).scenarios.length + 1 = st.scenarios.length) ∧
    (i ≠ "atual" → st.selectedId = some i →
      (attemptRemoveScenario i st).selectedId =
        (attemptRemoveScenario i st).scenarios.head?.map Scenario.id) := by
  refine ⟨?_, ?_, ?_⟩
  · simp [attemptRemoveScenario]
  · intro hid hm
    simp only [attemptRemoveScenario, if_neg hid, removeScenario]
    exact filter_ne_id_length hnd hm
  · intro hid hsel
    simp [attemptRemoveScenario, if_neg hid, removeScenario, hsel]

def scAtual : Scenario :=
  { id := "atual", name := "A", levelId := "A1", dependents := 0, helpDays := 20,
    baseSalary := 9000, gepiPointValue := 20, gepiPoints := 100, viPerHelpDay := 15,
    basicAnnualPctReaj := 0, gepiCentsAnnual := 0, viReajAnnual := 0, years := 30,
    color := "#1f77b4" }

def scOther : Scenario :=
  { scAtual with id := "c2", name := "B", color := "#ff7f0e" }

def exState : AppState := { scenarios := [scAtual, scOther], selectedId := some "c2" }

theorem C8_remove_scenario_witness :
    (exState.scenarios.map Scenario.id).Nodup ∧
    (attemptRemoveScenario "atual" exState = exState ∧
     ("c2" ≠ "atual" → "c2" ∈ exState.scenarios.map Scenario.id →
       (attemptRemoveScenario "c2" exState).scenarios.length + 1 = exState.scenarios.length) ∧
     ("c2" ≠ "atual" → exState.selectedId = some "c2" →
       (attemptRemoveScenario "c2" exState).selectedId =
         (attemptRemoveScenario "c2" exState).scenarios.head?.map Scenario.id)) :=
  ⟨by decide, C8_remove_scenario exState "c2" (by decide)⟩



inductive Json where
  | num : ℚ → Json
  | str : String → Json
  | bool : Bool → Json
  | null : Json
  | arr : List Json → Json
  | obj : List (String × Json) → Json

def Json.asStr : Json → Option String
  | .str s => some s
  | _ => none

def Json.asNum : Json → Option ℚ
  | .num q => some q
  | _ => none

def Json.asInt : Json → Option ℤ
  | .num q => if q.den = 1 then some q.num else none
  | _ => none

def encodeScenario (s : Scenario) : Json :=
  .obj [("id", .str s.id), ("name", .str s.name), ("levelId", .str s.levelId),
    ("dependents", .num s.dependents), ("helpDays", .num s.helpDays),
    ("baseSalary", .num s.baseSalary), ("gepiPointValue", .num s.gepiPointValue),
    ("gepiPoints", .num s.gepiPoints), ("viPerHelpDay", .num s.viPerHelpDay),
    ("basicAnnualPctReaj", .num s.basicAnnualPctReaj),
    ("gepiCentsAnnual", .num s.gepiCentsAnnual),
    ("viReajAnnual", .num s.viReajAnnual),
    ("years", .num (s.years : ℚ)), ("color", .str s.color)]

def decodeScenario : Json → Option Scenario
  | .obj fs => do
    let id ← (fs.lookup "id").bind Json.asStr
    let name ← (fs.lookup "name").bind Json.asStr
    let levelId ← (fs.lookup "levelId").bind Json.asStr
    let dependents ← (fs.lookup "dependents").bind Json.asNum
    let helpDays ← (fs.lookup "helpDays").bind Json.asNum
    let baseSalary ← (fs.lookup "baseSalary").bind Json.asNum
    let gepiPointValue ← (fs.lookup "gepiPointValue").bind Json.asNum
    let gepiPoints ← (fs.lookup "gepiPoints").bind Json.asNum
    let viPerHelpDay ← (fs.lookup "viPerHelpDay").bind Json.asNum
    let basicAnnualPctReaj ← (fs.lookup "basicAnnualPctReaj").bind Json.asNum
    let gepiCentsAnnual ← (fs.lookup "gepiCentsAnnual").bind Json.asNum
    let viReajAnnual ← (fs.lookup "viReajAnnual").bind Json.asNum
    let years ← (fs.lookup "years").bind Json.asInt
    let color ← (fs.lookup "color").bind Json.asStr
    pure ⟨id, name, levelId, dependents, helpDays, baseSalary, gepiPointValue,
      gepiPoints, viPerHelpDay, basicAnnualPctReaj, gepiCentsAnnual,
      viReajAnnual, years, color⟩
  | _ => none

def encodeScenarios (l : List Scenario) : Json := .arr (l.map encodeScenario)

def decodeScenarioList : List Json → Option (List Scenario)
  | [] => some []
  | j :: js => do
    let s ← decodeScenario j
    let rest ← decodeScenarioList js
    pure (s :: rest)

def decodeScenarios : Json → Option (List Scenario)
  | .arr js => decodeScenarioList js
  | _ => none

lemma decodeScenario_encodeScenario (s : Scenario) :
    decodeScenario (encodeScenario s) = some s := by
  simp [encodeScenario, decodeScenario, Json.asStr, Json.asNum, Json.asInt,
    List.lookup, Rat.den_intCast, Rat.num_intCast]

theorem C9_roundtrip (l : List Scenario) :
    decodeScenarios (encodeScenarios l) = some l := by
  induction l with
  | nil => simp [encodeScenarios, decodeScenarios, decodeScenarioList]
  | cons s l ih =>
    simp only [encodeScenarios, decodeScenarios, List.map_cons, decodeScenarioList] at *
    simp [decodeScenario_encodeScenario, ih]

end Simulador
